import Mathlib

/-!
# Verification of the monotone query-routing layer

Shallow embedding of the routing-and-consistency core of the
`monotone` repository: query classification (`src/mysql-parser.ts`
`isSelectQuery` and the regex classifier `isReadQuery` of the monotone
pool module), pool modes (`src/pool-modes.ts`), the replication wait
(`query-runner.ts` `waitForReplication` and
`src/replica-selector.ts` `GTIDReplicaSelector.waitForGTID`),
pool selection (`GTIDReplicaSelector.selectPool`), the routing proxies
(`createPoolProxy` in `src/virtual-pool.ts` and in the monotone pool
module), and the in-memory GTID store
(`src/gtid-providers/map-gtid-provider.ts`).

External collaborators (the mysql2 driver, node-sql-parser) are modelled
as parameters: a database call outcome is an `Except Err` value, the SQL
parser is a function argument of type `String → Except Err Ast`.
JavaScript `undefined`/optional values are modelled with `Option`, and
JavaScript string truthiness (`if (s)`) as a non-emptiness test.
Promise rejection is modelled by `Except.error`; a TypeScript function
with no `try/catch` around an awaited call is embedded so that the
`Except.error` of that call propagates to its own result.
-/

/-- Error value: a rejected driver promise or a parser exception. -/
inductive Err
  | dbFailure (msg : String)
  | parseFailure
deriving DecidableEq

/-- A database endpoint: the single primary or the i-th replica pool. -/
inductive Pool
  | primary
  | replica (i : Nat)
deriving DecidableEq

/-! ## Pool modes (`src/pool-modes.ts`) -/

/-- The hierarchical pool modes, in the order of the `MODES` array:
`['disabled', 'replica-selection', 'gtid-context-enabled']`. -/
inductive PoolMode
  | disabled
  | replicaSelection
  | gtidContextEnabled
deriving DecidableEq

/-- `MODES.indexOf(mode)` for the three members of the `MODES` array. -/
def modeIndex : PoolMode → Nat
  | .disabled => 0
  | .replicaSelection => 1
  | .gtidContextEnabled => 2

/-- `includesMode` from `src/pool-modes.ts`:
`MODES.indexOf(mode) >= MODES.indexOf(targetMode)`. -/
def includesMode (mode targetMode : PoolMode) : Bool :=
  modeIndex mode ≥ modeIndex targetMode

/-! ## Query classification

Two classifiers exist in the source: the parser-based `isSelectQuery`
(`src/mysql-parser.ts`, built on node-sql-parser's `astify`) and the
regex classifier `isReadQuery` of the monotone pool module
(`/^\s*(select|show|describe|desc|explain|with)\b/i`). -/

/-- Statement type as reported by node-sql-parser's `ast.type` field. -/
inductive StmtType
  | select
  | insert
  | update
  | delete
  | create
  | drop
  | otherStmt
deriving DecidableEq, BEq

/-- Result of `parser.astify(sql)`: a single statement object or an
array of statement objects (`Array.isArray(ast)` distinguishes them). -/
inductive Ast
  | single (t : StmtType)
  | multi (ts : List StmtType)
deriving DecidableEq, BEq

/-- The list of statements contained in an `astify` result. -/
def astStatements : Ast → List StmtType
  | .single t => [t]
  | .multi ts => ts

/-- `isSelectQuery` from `src/mysql-parser.ts`.  `parser.astify(sql)`
may throw (modelled by `Except.error`); the function has no
`try/catch`, so a parse failure propagates to the caller.  Otherwise:
`Array.isArray(ast) ? ast.every(a => a.type === 'select')
: ast.type === 'select'`. -/
def isSelectQuery (astify : String → Except Err Ast) (sql : String) :
    Except Err Bool :=
  match astify sql with
  | .error e => .error e
  | .ok (.single t) => .ok (t == StmtType.select)
  | .ok (.multi ts) => .ok (ts.all fun a => a == StmtType.select)

/-- A concrete finite model of node-sql-parser's `astify` on the
inputs used in the examples below; every other input is a parse
failure (node-sql-parser throws on text it cannot parse). -/
def astifyDemo (sql : String) : Except Err Ast :=
  if sql = "SELECT * FROM users" then .ok (.single .select)
  else if sql = "INSERT INTO users (name) VALUES (?)" then
    .ok (.single .insert)
  else if sql = "CREATE TABLE t (id INT)" then .ok (.single .create)
  else if sql = "WITH c AS (SELECT 1) SELECT * FROM c" then
    .ok (.single .select)
  else if sql = "select 1; drop table t" then
    .ok (.multi [.select, .drop])
  else .error .parseFailure

/-- JavaScript regex `\s` on the ASCII range (space, tab, line feed,
vertical tab, form feed, carriage return). -/
def jsWhitespace (c : Char) : Bool :=
  c == ' ' || c == '\t' || c == '\n' || c == '\x0b' || c == '\x0c' ||
    c == '\r'

/-- A regex word character (`\w`), used for the `\b` boundary test. -/
def isWordChar (c : Char) : Bool :=
  c.isAlpha || c.isDigit || c == '_'

/-- Case-insensitive match of a keyword at the head of the character
list; returns the remaining characters on success. -/
def matchKeyword : List Char → List Char → Option (List Char)
  | [], rest => some rest
  | _ :: _, [] => none
  | k :: ks, c :: cs => if c.toLower == k then matchKeyword ks cs else none

/-- The `\b` boundary after a keyword: end of input or a non-word
character. -/
def hasBoundary : List Char → Bool
  | [] => true
  | c :: _ => !isWordChar c

/-- The alternatives of `READ_QUERY_REGEX`:
`(select|show|describe|desc|explain|with)`. -/
def readKeywords : List (List Char) :=
  ["select", "show", "describe", "desc", "explain", "with"].map
    String.data

/-- `isReadQuery` from the monotone pool module:
`/^\s*(select|show|describe|desc|explain|with)\b/i.test(sql)`.
Leading `\s*` is consumed by `dropWhile` (no keyword starts with a
whitespace character, so greedy consumption is equivalent). -/
def isReadQuery (sql : String) : Bool :=
  let cs := sql.data.dropWhile jsWhitespace
  readKeywords.any fun kw =>
    match matchKeyword kw cs with
    | some rest => hasBoundary rest
    | none => false

example : isReadQuery "SELECT * FROM users" = true := by decide
example : isReadQuery "INSERT INTO users (name) VALUES (?)" = false := by
  decide
example : isReadQuery "  with c AS (SELECT 1) SELECT * FROM c" = true := by
  decide
example : isReadQuery "select 1; drop table t" = true := by decide
example : isReadQuery "!!! not sql" = false := by decide
example : isReadQuery "selection" = false := by decide
example : isSelectQuery astifyDemo "select 1; drop table t" =
    .ok false := rfl

/-! ## Replication wait (`query-runner.ts`)

`waitForReplication(pool, { gtidSet }, { logger, timeout })` issues
`SELECT WAIT_UNTIL_SQL_THREAD_AFTER_GTIDS(?, ?)` with arguments
`[gtidSet, timeout / 1000]` and maps the `wait_code` column of the
first result row through `switch`.  The `await pool.query` has no
`try/catch`, so a rejected driver call propagates.

A driver result is modelled as `Except Err (List (Option Int))`: the
list is the row array, an element is the row's `wait_code` field
(`none` for SQL `NULL` or a missing/non-numeric field). -/

/-- `SUCCESS` constant of `query-runner.ts`. -/
def SUCCESS : Nat := 0

/-- `TIMEOUT` constant of `query-runner.ts`. -/
def TIMEOUT : Nat := 1

/-- `ERROR` constant of `query-runner.ts`. -/
def ERROR : Nat := 2

/-- `isSuccessfulReplication` from `query-runner.ts`:
`result === SUCCESS`. -/
def isSuccessfulReplication (result : Nat) : Bool :=
  result == SUCCESS

/-- `waitForReplication` from `query-runner.ts`, as a function of the
driver's answer to the wait statement.  `row?.wait_code` is the first
row's field (`rows.head?.bind id`); `switch` maps `0`, `1`, default. -/
def waitForReplication (queryRes : Except Err (List (Option Int))) :
    Except Err Nat :=
  match queryRes with
  | .error e => .error e
  | .ok rows =>
    match rows.head?.bind id with
    | some 0 => .ok SUCCESS
    | some 1 => .ok TIMEOUT
    | _ => .ok ERROR

/-! ## Timeout arguments sent to the database

`createPoolProxy` (`src/virtual-pool.ts`) passes
`{ timeout: timeout ?? 0.05 }` to `waitForReplication`, whose options
declare the value to be milliseconds and which sends `timeout / 1000`
as the SQL argument.  `GTIDReplicaSelector.waitForGTID` sends
`this.options?.timeout ?? 0.05` directly. -/

/-- The `timeout ?? 0.05` option value `createPoolProxy`
(`src/virtual-pool.ts`) hands to `waitForReplication`. -/
def vpWaitTimeoutOption (timeout : Option ℚ) : ℚ :=
  timeout.getD (5 / 100)

/-- The numeric timeout argument `waitForReplication` passes to
`WAIT_UNTIL_SQL_THREAD_AFTER_GTIDS`: `timeout / 1000`. -/
def waitForReplicationDbTimeout (timeout : ℚ) : ℚ :=
  timeout / 1000

/-- The numeric timeout argument `GTIDReplicaSelector.waitForGTID`
passes to `WAIT_FOR_EXECUTED_GTID_SET`:
`this.options?.timeout ?? 0.05`. -/
def waitForGTIDDbTimeout (timeout : Option ℚ) : ℚ :=
  timeout.getD (5 / 100)

/-! ## GTID replica selector (`src/replica-selector.ts`) -/

/-- Tags for the warn/error/info log sites that accompany routing and
fallback decisions (debug-level logging is not modelled). -/
inductive LogTag
  | noReplicas
  | gtidUnavailable
  | syncTimeout
  | syncError
  | unknownResult
  | gtidFetchFailed
  | noGtidFromPrimary
  | noWaitResult
  | invalidWaitResult
  | waitQueryFailed
  | replicaFallback
  | noGtidContext
  | multiReplica
deriving DecidableEq

/-- `GTIDReplicaSelector.getGTID`: `this.gtidProvider.getGTID()` in a
`try/catch` that logs and returns `undefined` on failure.  The
provider's outcome is the argument (`Except.error` = rejection,
`Option String` = its resolved value). -/
def selectorGetGTID (providerRes : Except Err (Option String)) :
    Option String × List LogTag :=
  match providerRes with
  | .error _ => (none, [.gtidFetchFailed])
  | .ok g => (g, [])

/-- `GTIDReplicaSelector.waitForGTID(replica)`.  Returns the wait code
(`none` models the bare `return` when no GTID is available: `if
(!gtid)` — JavaScript falsiness, so an empty string also skips),
whether the wait statement was actually sent to the replica, and the
logged tags.  Malformed results and a rejected wait query map to `-1`
inside the function's own `try/catch`. -/
def waitForGTID (providerRes : Except Err (Option String))
    (waitQueryRes : Except Err (List (Option Int))) :
    Option Int × Bool × List LogTag :=
  let fetched := selectorGetGTID providerRes
  match fetched.1 with
  | none => (none, false, fetched.2 ++ [.noGtidFromPrimary])
  | some g =>
    if g.isEmpty then (none, false, fetched.2 ++ [.noGtidFromPrimary])
    else
      match waitQueryRes with
      | .error _ => (some (-1), true, fetched.2 ++ [.waitQueryFailed])
      | .ok rows =>
        match rows with
        | [] => (some (-1), true, fetched.2 ++ [.noWaitResult])
        | row :: _ =>
          match row with
          | none => (some (-1), true, fetched.2 ++ [.invalidWaitResult])
          | some w => (some w, true, fetched.2)

/-- Result of a pool-selection or routing step: the pool that runs the
caller's query, the pools that received the synchronization wait
statement, and the logged tags. -/
structure Selected where
  target : Pool
  waitCalls : List Pool
  logs : List LogTag
deriving DecidableEq

/-- `GTIDReplicaSelector.selectPool()`: destructures
`[selectedReplica] = this.replicas`; with no replica falls back to
primary; otherwise runs `waitForGTID` on the first replica and
switches on the result (`undefined`, 0, 1, -1, default). -/
def selectPool (primary : Pool) (replicas : List Pool)
    (providerRes : Except Err (Option String))
    (waitQueryRes : Except Err (List (Option Int))) : Selected :=
  match replicas with
  | [] => ⟨primary, [], [.noReplicas]⟩
  | r :: _ =>
    let waited := waitForGTID providerRes waitQueryRes
    let waitCalls := if waited.2.1 then [r] else []
    match waited.1 with
    | none => ⟨primary, waitCalls, waited.2.2 ++ [.gtidUnavailable]⟩
    | some w =>
      if w = 0 then ⟨r, waitCalls, waited.2.2⟩
      else if w = 1 then ⟨primary, waitCalls, waited.2.2 ++ [.syncTimeout]⟩
      else if w = -1 then
        ⟨primary, waitCalls, waited.2.2 ++ [.syncError]⟩
      else ⟨primary, waitCalls, waited.2.2 ++ [.unknownResult]⟩

example :
    selectPool Pool.primary [Pool.replica 0] (.ok (some "g"))
      (.ok [some 0]) = ⟨Pool.replica 0, [Pool.replica 0], []⟩ := rfl
example :
    selectPool Pool.primary [Pool.replica 0] (.ok (some "g"))
      (.ok [some 1]) =
      ⟨Pool.primary, [Pool.replica 0], [.syncTimeout]⟩ := rfl
example :
    selectPool Pool.primary [Pool.replica 0] (.ok none) (.ok [some 0]) =
      ⟨Pool.primary, [], [.noGtidFromPrimary, .gtidUnavailable]⟩ := rfl

/-! ## The monotone pool proxy (`createPoolProxy` of the monotone pool
module, with the `disabled` flag) -/

/-- Result of one intercepted `query(...)` call on the monotone pool:
target pool, wait statements issued, number of `gtidProvider.getGTID`
lookups performed, and logged tags. -/
structure MonoRouted where
  target : Pool
  waitCalls : List Pool
  providerLookups : Nat
  logs : List LogTag
deriving DecidableEq

/-- The routing body of the monotone `createPoolProxy` query
interception: `isReadQuery(sql)` decides read vs. write; reads check
`state.replicas.length === 0` (primary + warn), warn once when more
than one replica is configured, then either take
`state.replicas[0] ?? primary` when `disabled` or run
`selector.selectPool()`. Writes and unrecognized text go to the
primary. -/
def monotoneRoute (disabled : Bool) (primary : Pool)
    (replicas : List Pool) (sql : String)
    (providerRes : Except Err (Option String))
    (waitQueryRes : Except Err (List (Option Int))) : MonoRouted :=
  if isReadQuery sql then
    match replicas with
    | [] => ⟨primary, [], 0, [.noReplicas]⟩
    | r :: rs =>
      let multi : List LogTag := if rs.isEmpty then [] else [.multiReplica]
      if disabled then ⟨r, [], 0, multi⟩
      else
        let s := selectPool primary (r :: rs) providerRes waitQueryRes
        ⟨s.target, s.waitCalls, 1, multi ++ s.logs⟩
  else ⟨primary, [], 0, []⟩

/-! ## The virtual pool proxy (`createPoolProxy` of
`src/virtual-pool.ts`, with hierarchical modes and the GTID
execution context) -/

/-- Result of one intercepted `query(...)` call on the virtual pool.
`target` is `Except.error` when the call rejects before executing the
caller's query anywhere (a classification exception or a rejected
`waitForReplication`). -/
structure VpRouted where
  target : Except Err Pool
  waitCalls : List Pool
  logs : List LogTag

/-- The routing body of `createPoolProxy` in `src/virtual-pool.ts`.
`classification` is the outcome of `isSelectQuery(sql)` (which may
throw), `nextReplica` the outcome of `selector.getNextReplica()`,
`ctxGtid` the GTID of `Context.read()` when a context cell is active
(`some ""` is an active cell holding an empty GTID: `if (ctx)` tests
the object, not the string).  The context is consulted only when the
mode includes `gtid-context-enabled`; `waitForReplication` is awaited
without `try/catch`, so its rejection rejects the whole call. -/
def vpRoute (mode : PoolMode) (primary : Pool)
    (nextReplica : Option Pool) (classification : Except Err Bool)
    (ctxGtid : Option String)
    (waitQueryRes : Except Err (List (Option Int))) : VpRouted :=
  match classification with
  | .error e => ⟨.error e, [], []⟩
  | .ok isSelect =>
    if isSelect && includesMode mode .replicaSelection then
      let selected := nextReplica.getD primary
      let ctx := if includesMode mode .gtidContextEnabled then ctxGtid
        else none
      match ctx with
      | some _ =>
        match waitForReplication waitQueryRes with
        | .error e => ⟨.error e, [selected], []⟩
        | .ok code =>
          if isSuccessfulReplication code then
            ⟨.ok selected, [selected], []⟩
          else ⟨.ok primary, [selected], [.replicaFallback]⟩
      | none => ⟨.ok selected, [], [.noGtidContext]⟩
    else ⟨.ok primary, [], []⟩

example :
    (vpRoute .gtidContextEnabled Pool.primary (some (Pool.replica 0))
      (.ok true) (some "g") (.ok [some 1])).target =
      .ok Pool.primary := rfl
example :
    (vpRoute .gtidContextEnabled Pool.primary (some (Pool.replica 0))
      (.ok true) none (.ok [some 1])).target =
      .ok (Pool.replica 0) := rfl
example :
    (vpRoute .disabled Pool.primary (some (Pool.replica 0))
      (.ok true) (some "g") (.ok [some 0])).target =
      .ok Pool.primary := rfl

/-! ## The proxy `get` trap shared by both pools

Both `createPoolProxy` variants wrap the primary in
`new Proxy(primary, { get(target, prop, receiver) { if (prop !==
'query') return Reflect.get(target, prop, receiver); ... } })`. -/

/-- Outcome of accessing a property on the routing proxy: the
primary's own member, unmodified, or the interception of `query`. -/
inductive ProxyAccess (M : Type)
  | passthrough (member : M)
  | interceptedQuery
deriving DecidableEq

/-- The `get` trap of both `createPoolProxy` variants: any property
other than `query` is `Reflect.get(target, prop, receiver)` on the
wrapped primary; `query` returns the routing function. -/
def poolProxyGet (M : Type) (targetMembers : String → M)
    (prop : String) : ProxyAccess M :=
  if prop ≠ "query" then .passthrough (targetMembers prop)
  else .interceptedQuery

/-! ## In-memory GTID store
(`src/gtid-providers/map-gtid-provider.ts`)

The JavaScript `Map<string, string>` is modelled as an association
list in insertion order: `Map.prototype.set` overwrites in place or
appends, `Map.prototype.get` finds the first (unique) matching key. -/

/-- The contents of a `Map<string, string>`, in insertion order. -/
abbrev GTIDMap := List (String × String)

/-- `Map.prototype.get`. -/
def mapGet (m : GTIDMap) (k : String) : Option String :=
  (m.find? fun e => e.1 == k).map fun e => e.2

/-- `Map.prototype.set`: overwrite an existing key in place, else
append at the end. -/
def mapSet (m : GTIDMap) (k v : String) : GTIDMap :=
  if m.any fun e => e.1 == k then
    m.map fun e => if e.1 == k then (k, v) else e
  else m ++ [(k, v)]

/-- The loop of `MapGTIDProvider.getGTID`: `const gtid =
this.gtidMap.get(table); if (gtid) return gtid;` — the truthiness test
skips both a missing key and a stored empty string. -/
def getGTIDLoop (m : GTIDMap) : List String → Option String
  | [] => none
  | t :: ts =>
    match mapGet m t with
    | some g => if g.isEmpty then getGTIDLoop m ts else some g
    | none => getGTIDLoop m ts

/-- `MapGTIDProvider.getGTID(affectedTables?)`: `undefined` when no
tables are supplied or the list is empty, else the first truthy match
in list order. -/
def mapGetGTID (m : GTIDMap) (affectedTables : Option (List String)) :
    Option String :=
  match affectedTables with
  | none => none
  | some ts => if ts.isEmpty then none else getGTIDLoop m ts

/-- `MapGTIDProvider.onWriteGTID(gtid, affectedTables?)`: a no-op when
no tables are supplied or the list is empty, else `set` for each
table. -/
def mapOnWriteGTID (m : GTIDMap) (gtid : String)
    (affectedTables : Option (List String)) : GTIDMap :=
  match affectedTables with
  | none => m
  | some ts =>
    if ts.isEmpty then m else ts.foldl (fun acc t => mapSet acc t gtid) m

/-- `MapGTIDProvider.size()`: `this.gtidMap.size`. -/
def mapSize (m : GTIDMap) : Nat := m.length

example : mapGetGTID (mapOnWriteGTID [] "T" (some ["db.users"]))
    (some ["db.users"]) = some "T" := rfl
example : mapGetGTID (mapOnWriteGTID [] "" (some ["db.users"]))
    (some ["db.users"]) = none := rfl
example : mapGetGTID [("a", "x"), ("b", "y")] (some ["b", "a"]) =
    some "y" := rfl

/-! ## Object identity for `getAllGTIDs`

`MapGTIDProvider.getAllGTIDs()` returns `new Map(this.gtidMap)`.  To
express that this is a fresh object (mutating it does not touch the
provider's own map), `Map` objects live in an explicit heap of cells;
a provider holds the index of its cell, and `new Map(...)` allocates a
fresh cell. -/

/-- A heap of `Map<string, string>` objects, addressed by index. -/
abbrev MapHeap := List GTIDMap

/-- Dereference a `Map` object. -/
def readCell (h : MapHeap) (r : Nat) : GTIDMap := h.getD r []

/-- Replace the contents of a `Map` object (any mutation of it). -/
def writeCell (h : MapHeap) (r : Nat) (m : GTIDMap) : MapHeap :=
  h.set r m

/-- `new Map(contents)`: allocate a fresh cell. -/
def heapAlloc (h : MapHeap) (m : GTIDMap) : MapHeap × Nat :=
  (h ++ [m], h.length)

/-- `MapGTIDProvider.getAllGTIDs()` for a provider whose map lives in
cell `self`: `return new Map(this.gtidMap)`. -/
def getAllGTIDs (h : MapHeap) (self : Nat) : MapHeap × Nat :=
  heapAlloc h (readCell h self)

/-! ## Helper lemmas -/

theorem readCell_append (h : MapHeap) (m : GTIDMap) (p : Nat)
    (hp : p < h.length) : readCell (h ++ [m]) p = readCell h p := by
  unfold readCell
  rw [List.getD_eq_getElem?_getD, List.getD_eq_getElem?_getD,
    List.getElem?_append]
  simp [hp]

theorem readCell_writeCell_ne (h : MapHeap) (r p : Nat) (m : GTIDMap)
    (hne : r ≠ p) : readCell (writeCell h r m) p = readCell h p := by
  unfold readCell writeCell
  rw [List.getD_eq_getElem?_getD, List.getD_eq_getElem?_getD,
    List.getElem?_set_ne hne]

theorem readCell_alloc (h : MapHeap) (m : GTIDMap) :
    readCell (h ++ [m]) h.length = m := by
  unfold readCell
  rw [List.getD_eq_getElem?_getD, List.getElem?_concat_length]
  rfl

theorem mapGet_map_overwrite (m : GTIDMap) (k v : String) :
    mapGet (m.map fun e => if e.1 == k then (k, v) else e) k =
      (mapGet m k).map fun _ => v := by
  induction m with
  | nil => rfl
  | cons e es ih =>
    by_cases he : e.1 == k
    · simp [mapGet, List.find?, he]
    · simp only [List.map_cons]
      simp [mapGet, List.find?, he] at ih ⊢
      exact ih

theorem mapGet_eq_none_of_any_false (m : GTIDMap) (k : String)
    (h : (m.any fun e => e.1 == k) = false) : mapGet m k = none := by
  unfold mapGet
  rw [List.find?_eq_none.mpr]
  · rfl
  · intro x hx
    simpa using List.any_eq_false.mp h x hx

theorem mapGet_isSome_of_any_true (m : GTIDMap) (k : String)
    (h : (m.any fun e => e.1 == k) = true) : (mapGet m k).isSome := by
  unfold mapGet
  have hf : (List.find? (fun e => e.1 == k) m).isSome := by
    rw [List.find?_isSome]
    simpa using List.any_eq_true.mp h
  obtain ⟨x, hx⟩ := Option.isSome_iff_exists.mp hf
  simp [hx]

theorem mapGet_mapSet_self (m : GTIDMap) (k v : String) :
    mapGet (mapSet m k v) k = some v := by
  unfold mapSet
  by_cases h : m.any fun e => e.1 == k
  · rw [if_pos h, mapGet_map_overwrite]
    obtain ⟨g, hg⟩ := Option.isSome_iff_exists.mp
      (mapGet_isSome_of_any_true m k h)
    rw [hg]; rfl
  · rw [if_neg h]
    unfold mapGet
    rw [List.find?_append, List.find?_eq_none.mpr, Option.none_or]
    · simp [List.find?]
    · intro x hx
      simpa using List.any_eq_false.mp (Bool.of_not_eq_true h) x hx

/-! ## Claim theorems -/

/-- C9: accessing any operation of the routed pool other than `query`
returns the wrapped primary endpoint's own member unmodified; only
`query` is intercepted by the routing proxy's `get` trap. -/
theorem c9_only_query_intercepted :
    (∀ (M : Type) (targetMembers : String → M) (prop : String),
      prop ≠ "query" →
        poolProxyGet M targetMembers prop =
          .passthrough (targetMembers prop)) ∧
    ∀ (M : Type) (targetMembers : String → M),
      poolProxyGet M targetMembers "query" = .interceptedQuery := by
  constructor
  · intro M targetMembers prop hprop
    simp [poolProxyGet, hprop]
  · intro M targetMembers
    simp [poolProxyGet]

/-- Witness for C9 at a concrete property name and member table. -/
theorem c9_only_query_intercepted_witness :
    poolProxyGet Nat (fun _ => 7) "getConnection" = .passthrough 7 :=
  c9_only_query_intercepted.1 Nat (fun _ => 7) "getConnection"
    (by decide)

/-- C10: `getAllGTIDs` returns a fresh copy of the provider's map:
the provider's own cell is unchanged by the call, the returned
reference is a different object holding equal contents, and any
mutation of the returned object leaves the provider's stored entries
(and hence its `getGTID` and `size` answers) unchanged. -/
theorem c10_getAllGTIDs_is_copy (h : MapHeap) (self : Nat)
    (hself : self < h.length) (m2 : GTIDMap)
    (keys : Option (List String)) :
    readCell (getAllGTIDs h self).1 self = readCell h self ∧
    (getAllGTIDs h self).2 ≠ self ∧
    readCell (getAllGTIDs h self).1 (getAllGTIDs h self).2 =
      readCell h self ∧
    readCell (writeCell (getAllGTIDs h self).1 (getAllGTIDs h self).2
      m2) self = readCell h self ∧
    mapGetGTID (readCell (writeCell (getAllGTIDs h self).1
      (getAllGTIDs h self).2 m2) self) keys =
      mapGetGTID (readCell h self) keys ∧
    mapSize (readCell (writeCell (getAllGTIDs h self).1
      (getAllGTIDs h self).2 m2) self) = mapSize (readCell h self) := by
  have hne : h.length ≠ self := Nat.ne_of_gt hself
  have h1 : readCell (getAllGTIDs h self).1 self = readCell h self :=
    readCell_append h (readCell h self) self hself
  have h4 : readCell (writeCell (getAllGTIDs h self).1
      (getAllGTIDs h self).2 m2) self = readCell h self := by
    rw [show (getAllGTIDs h self).2 = h.length from rfl]
    rw [readCell_writeCell_ne _ _ _ _ hne]
    exact h1
  refine ⟨h1, hne, ?_, h4, by rw [h4], by rw [h4]⟩
  exact readCell_alloc h (readCell h self)

/-- Witness for C10 on a concrete one-cell heap. -/
theorem c10_getAllGTIDs_is_copy_witness :
    (0 : Nat) < ([[("db.users", "g")]] : MapHeap).length ∧
    readCell (getAllGTIDs [[("db.users", "g")]] 0).1 0 =
      readCell [[("db.users", "g")]] 0 :=
  ⟨by decide,
    (c10_getAllGTIDs_is_copy [[("db.users", "g")]] 0 (by decide) []
      (some ["db.users"])).1⟩

/-- C8 counterexample: the claim fails at the token `T = ""`.
`onWriteGTID` stores the empty string, but `getGTID`'s truthiness test
`if (gtid)` skips it, so `get([X])` after `onWrite("", [X])` returns
none instead of `""`. -/
theorem c8_counterexample :
    ¬ mapGetGTID (mapOnWriteGTID [] "" (some ["db.users"]))
      (some ["db.users"]) = some "" := by decide

/-- C8 (amended): for every NONEMPTY token `T`, `onWrite(T, [X])`
followed by `get([X])` returns `T`; `get([Y])` for an unwritten key is
none; `get` with no keys (or an empty key list) is none; `onWrite`
with no keys (or an empty key list) stores nothing; and `get` returns
the stored token of the first key in list order whose stored token is
nonempty (keys whose stored token is missing or empty are skipped). -/
theorem c8_map_provider_roundtrip :
    (∀ (m : GTIDMap) (T X : String), T ≠ "" →
      mapGetGTID (mapOnWriteGTID m T (some [X])) (some [X]) = some T) ∧
    (∀ (m : GTIDMap) (Y : String), mapGet m Y = none →
      mapGetGTID m (some [Y]) = none) ∧
    (∀ m : GTIDMap, mapGetGTID m none = none) ∧
    (∀ m : GTIDMap, mapGetGTID m (some []) = none) ∧
    (∀ (m : GTIDMap) (T : String), mapOnWriteGTID m T none = m) ∧
    (∀ (m : GTIDMap) (T : String), mapOnWriteGTID m T (some []) = m) ∧
    (∀ (m : GTIDMap) (k : String) (ks : List String) (g : String),
      mapGet m k = some g → g ≠ "" →
        mapGetGTID m (some (k :: ks)) = some g) ∧
    (∀ (m : GTIDMap) (k : String) (ks : List String),
      (mapGet m k = none ∨ mapGet m k = some "") →
        mapGetGTID m (some (k :: ks)) = getGTIDLoop m ks) := by
  have hne : ∀ g : String, g ≠ "" → g.isEmpty = false := by
    intro g hg
    rcases h : g.isEmpty with _ | _
    · rfl
    · exact absurd ((String.isEmpty_iff g).mp h) hg
  have hskip : ∀ (m : GTIDMap) (k : String) (ks : List String),
      (mapGet m k = none ∨ mapGet m k = some "") →
        mapGetGTID m (some (k :: ks)) = getGTIDLoop m ks := by
    intro m k ks hk
    rcases hk with hk | hk <;>
      simp [mapGetGTID, getGTIDLoop, hk,
        show "".isEmpty = true from rfl]
  refine ⟨?_, ?_, fun m => rfl, fun m => rfl, fun m T => rfl,
    fun m T => rfl, ?_, hskip⟩
  · intro m T X hT
    simp [mapOnWriteGTID, mapGetGTID, getGTIDLoop,
      mapGet_mapSet_self m X T, hne T hT]
  · intro m Y hY
    simp [mapGetGTID, getGTIDLoop, hY]
  · intro m k ks g hg hgne
    simp [mapGetGTID, getGTIDLoop, hg, hne g hgne]

/-- Witness for C8 (amended) at a concrete map, token and keys. -/
theorem c8_map_provider_roundtrip_witness :
    mapGetGTID (mapOnWriteGTID [] "gtid-123" (some ["db.users"]))
      (some ["db.users"]) = some "gtid-123" :=
  c8_map_provider_roundtrip.1 [] "gtid-123" "db.users" (by decide)

/-- C5 counterexample: a rejected driver call is NOT mapped to the
Error outcome — `waitForReplication` has no `try/catch`, so the
rejection propagates to its caller instead of producing `ERROR`. -/
theorem c5_counterexample :
    waitForReplication (.error (.dbFailure "connection refused")) ≠
      .ok ERROR ∧
    waitForReplication (.error (.dbFailure "connection refused")) =
      .error (.dbFailure "connection refused") := by
  exact ⟨by simp [waitForReplication], rfl⟩

/-- C5 (amended): on a normally-returned result `waitForReplication`
yields exactly one of CaughtUp (0), TimedOut (1) or Error (2), mapping
wait code 0 to CaughtUp, 1 to TimedOut, and a missing row or null code
to Error — but an underlying call failure propagates to the caller
instead of being mapped to Error.  `GTIDReplicaSelector.waitForGTID`
does swallow failures: a rejected wait query, a missing row and a
non-numeric field all yield `-1`, while wait codes 0 and 1 are
returned as-is. -/
theorem c5_wait_outcomes :
    (∀ (w : Except Err (List (Option Int))) (code : Nat),
      waitForReplication w = .ok code →
        code = SUCCESS ∨ code = TIMEOUT ∨ code = ERROR) ∧
    (∀ rest, waitForReplication (.ok (some 0 :: rest)) = .ok SUCCESS) ∧
    (∀ rest, waitForReplication (.ok (some 1 :: rest)) = .ok TIMEOUT) ∧
    waitForReplication (.ok []) = .ok ERROR ∧
    (∀ rest, waitForReplication (.ok (none :: rest)) = .ok ERROR) ∧
    (∀ e, waitForReplication (.error e) = .error e) ∧
    (∀ (g : String) (e : Err), g ≠ "" →
      (waitForGTID (.ok (some g)) (.error e)).1 = some (-1)) ∧
    (∀ g : String, g ≠ "" →
      (waitForGTID (.ok (some g)) (.ok [])).1 = some (-1)) ∧
    (∀ (g : String) (rest : List (Option Int)), g ≠ "" →
      (waitForGTID (.ok (some g)) (.ok (none :: rest))).1 =
        some (-1)) ∧
    (∀ (g : String) (rest : List (Option Int)) (w : Int), g ≠ "" →
      (waitForGTID (.ok (some g)) (.ok (some w :: rest))).1 =
        some w) := by
  have hne : ∀ g : String, g ≠ "" → g.isEmpty = false := by
    intro g hg
    rcases h : g.isEmpty with _ | _
    · rfl
    · exact absurd ((String.isEmpty_iff g).mp h) hg
  refine ⟨?_, fun rest => rfl, fun rest => rfl, rfl, fun rest => rfl,
    fun e => rfl, ?_, ?_, ?_, ?_⟩
  · intro w code h
    match w with
    | .error e => exact absurd h (by simp [waitForReplication])
    | .ok rows =>
      have hw : waitForReplication (.ok rows) =
          match rows.head?.bind id with
          | some 0 => .ok SUCCESS
          | some 1 => .ok TIMEOUT
          | _ => .ok ERROR := rfl
      rw [hw] at h
      split at h <;> injection h with h <;> subst h <;> simp
  · intro g e hg
    simp [waitForGTID, selectorGetGTID, hne g hg]
  · intro g hg
    simp [waitForGTID, selectorGetGTID, hne g hg]
  · intro g rest hg
    simp [waitForGTID, selectorGetGTID, hne g hg]
  · intro g rest w hg
    simp [waitForGTID, selectorGetGTID, hne g hg]

/-- Witness for C5 (amended) at concrete inputs. -/
theorem c5_wait_outcomes_witness :
    (waitForGTID (.ok (some "gtid-1"))
      (.error (.dbFailure "replica down"))).1 = some (-1) :=
  c5_wait_outcomes.2.2.2.2.2.2.1 "gtid-1" (.dbFailure "replica down")
    (by decide)

/-- C6: the virtual pool hands `waitForReplication` the option value
`timeout ?? 0.05` (seconds, intended as the default 50ms wait), but
`waitForReplication` declares its option to be milliseconds and sends
`timeout / 1000` to the database, so at the default the database's
bounded wait receives 0.00005 instead of 0.05 — one twentieth of a
millisecond.  `GTIDReplicaSelector.waitForGTID` does send the
configured seconds value, default 0.05, unchanged. -/
theorem c6_timeout_unit_mismatch :
    waitForReplicationDbTimeout (vpWaitTimeoutOption none) =
      1 / 20000 ∧
    (1 / 20000 : ℚ) ≠ 5 / 100 ∧
    waitForGTIDDbTimeout none = 5 / 100 ∧
    ∀ t : ℚ, waitForReplicationDbTimeout (vpWaitTimeoutOption
      (some t)) = t / 1000 := by
  refine ⟨?_, by norm_num, rfl, fun t => rfl⟩
  norm_num [waitForReplicationDbTimeout, vpWaitTimeoutOption]

/-- C3: classification by the parser-based `isSelectQuery` does NOT
swallow a parse failure: `parser.astify` throws on unparseable text
and `isSelectQuery` has no `try/catch`, so the error propagates out of
classification instead of resolving to Write.  (The regex classifier
`isReadQuery` of the monotone pool module does classify unparseable
text as a non-read, which routes it to the primary.) -/
theorem c3_parse_failure_propagates :
    isSelectQuery astifyDemo "!!! not sql" = .error .parseFailure ∧
    (∀ (astify : String → Except Err Ast) (sql : String) (e : Err),
      astify sql = .error e → isSelectQuery astify sql = .error e) ∧
    isReadQuery "!!! not sql" = false ∧
    ∀ (disabled : Bool) (primary : Pool) (replicas : List Pool)
      (pr : Except Err (Option String))
      (w : Except Err (List (Option Int))),
      (monotoneRoute disabled primary replicas "!!! not sql" pr
        w).target = primary := by
  refine ⟨rfl, ?_, by decide, ?_⟩
  · intro astify sql e h
    simp [isSelectQuery, h]
  · intro disabled primary replicas pr w
    have hr : isReadQuery "!!! not sql" = false := by decide
    simp [monotoneRoute, hr]

/-- Witness for C3 applying the propagation conjunct at a concrete
parser outcome. -/
theorem c3_parse_failure_propagates_witness :
    isSelectQuery astifyDemo "DELETE FROM users WHERE ..." =
      .error .parseFailure :=
  c3_parse_failure_propagates.2.1 astifyDemo
    "DELETE FROM users WHERE ..." .parseFailure rfl

/-- C7 counterexample: the regex classifier `isReadQuery` classifies
`"select 1; drop table t"` as Read although its second statement is a
schema change, not a select-family statement — the claimed "only if
every statement parses as pure data-retrieval" fails on the code. -/
theorem c7_counterexample :
    isReadQuery "select 1; drop table t" = true ∧
    astifyDemo "select 1; drop table t" =
      .ok (.multi [.select, .drop]) ∧
    ((astStatements (.multi [.select, .drop])).all
      fun t => t == StmtType.select) = false := by
  exact ⟨by decide, rfl, by decide⟩

/-- C7 (amended): the parser-based `isSelectQuery` returns Read if and
only if every parsed statement is a select (including CTE-prefixed
selects, whose parsed type is select); the regex classifier
`isReadQuery` examines only the leading keyword, so a multi-statement
text that begins with a select keyword is classified Read even when a
later statement is a mutation.  The four cited example
classifications hold for both classifiers. -/
theorem c7_classification :
    (∀ (astify : String → Except Err Ast) (sql : String) (ast : Ast),
      astify sql = .ok ast →
        (isSelectQuery astify sql = .ok true ↔
          ((astStatements ast).all fun t => t == StmtType.select) =
            true)) ∧
    isSelectQuery astifyDemo "SELECT * FROM users" = .ok true ∧
    isReadQuery "SELECT * FROM users" = true ∧
    isSelectQuery astifyDemo "INSERT INTO users (name) VALUES (?)" =
      .ok false ∧
    isReadQuery "INSERT INTO users (name) VALUES (?)" = false ∧
    isSelectQuery astifyDemo "CREATE TABLE t (id INT)" = .ok false ∧
    isReadQuery "CREATE TABLE t (id INT)" = false ∧
    isSelectQuery astifyDemo "WITH c AS (SELECT 1) SELECT * FROM c" =
      .ok true ∧
    isReadQuery "WITH c AS (SELECT 1) SELECT * FROM c" = true := by
  refine ⟨?_, rfl, by decide, rfl, by decide, rfl, by decide, rfl,
    by decide⟩
  intro astify sql ast h
  cases ast with
  | single t => simp [isSelectQuery, h, astStatements]
  | multi ts => simp [isSelectQuery, h, astStatements]

/-- Witness for C7 (amended) applying the equivalence at the cited
select example. -/
theorem c7_classification_witness :
    isSelectQuery astifyDemo "SELECT * FROM users" = .ok true ↔
      ((astStatements (.single .select)).all
        fun t => t == StmtType.select) = true :=
  c7_classification.1 astifyDemo "SELECT * FROM users"
    (.single .select) rfl

/-- C1: for a Read-classified query with a selected replica and an
obtained reference token, a TimedOut or Error synchronization outcome
routes the query to the primary; the replica receives exactly the one
synchronization call and never the read query itself.  This holds in
both routing paths: the virtual pool (context token, outcome of
`waitForReplication`) and the GTID selector (provider token, wait
code 1 or -1 from `waitForGTID`). -/
theorem c1_failed_sync_falls_back_to_primary :
    (∀ (i : Nat) (g : String) (w : Except Err (List (Option Int)))
      (code : Nat),
      waitForReplication w = .ok code →
      (code = TIMEOUT ∨ code = ERROR) →
        vpRoute .gtidContextEnabled Pool.primary
          (some (Pool.replica i)) (.ok true) (some g) w =
          ⟨.ok Pool.primary, [Pool.replica i], [.replicaFallback]⟩) ∧
    (∀ (i : Nat) (rs : List Pool) (pr : Except Err (Option String))
      (w : Except Err (List (Option Int))) (c : Int)
      (logs : List LogTag),
      waitForGTID pr w = (some c, true, logs) →
      (c = 1 ∨ c = -1) →
        selectPool Pool.primary (Pool.replica i :: rs) pr w =
          ⟨Pool.primary, [Pool.replica i],
            logs ++ [if c = 1 then .syncTimeout else .syncError]⟩) ∧
    ∀ i : Nat, Pool.replica i ≠ Pool.primary := by
  refine ⟨?_, ?_, fun i => by simp⟩
  · intro i g w code hw hc
    rcases hc with hc | hc <;> subst hc <;>
      simp [vpRoute, includesMode, modeIndex, hw,
        isSuccessfulReplication, SUCCESS, TIMEOUT, ERROR]
  · intro i rs pr w c logs hwg hc
    rcases hc with hc | hc <;> subst hc <;> simp [selectPool, hwg]

/-- Witness for C1: a timed-out wait on concrete inputs falls back to
the primary with a single synchronization call to the replica. -/
theorem c1_failed_sync_falls_back_to_primary_witness :
    vpRoute .gtidContextEnabled Pool.primary (some (Pool.replica 0))
      (.ok true) (some "g") (.ok [some 1]) =
      ⟨.ok Pool.primary, [Pool.replica 0], [.replicaFallback]⟩ :=
  c1_failed_sync_falls_back_to_primary.1 0 "g" (.ok [some 1]) TIMEOUT
    rfl (Or.inl rfl)

/-- C2 counterexample: in the virtual pool's routing path, a
Read-classified query with a selected replica and NO obtainable token
(`Context.read()` returns nothing) executes on the replica, not on
the primary — the code logs "No GTID context found, skipping to
replica" and sends the query to the selected replica without any
synchronization. -/
theorem c2_counterexample :
    (vpRoute .gtidContextEnabled Pool.primary (some (Pool.replica 0))
      (.ok true) none (.ok [])).target = .ok (Pool.replica 0) ∧
    (vpRoute .gtidContextEnabled Pool.primary (some (Pool.replica 0))
      (.ok true) none (.ok [])).logs = [.noGtidContext] ∧
    Pool.replica 0 ≠ Pool.primary := by
  exact ⟨rfl, rfl, by decide⟩

/-- C2 (amended): when no reference token is obtainable the two
routing paths disagree.  In the GTID-selector path (provider returns
nothing, the provider call rejects, or the provider returns an empty
string) the read executes on the primary with a token-unavailable
warning and no synchronization call.  In the virtual pool's
execution-context path, absence of a context cell routes the read to
the selected replica without any synchronization, logging that the
GTID context was not found. -/
theorem c2_token_unavailable_routing :
    (∀ (primary r : Pool) (rs : List Pool)
      (w : Except Err (List (Option Int))),
      selectPool primary (r :: rs) (.ok none) w =
        ⟨primary, [], [.noGtidFromPrimary, .gtidUnavailable]⟩) ∧
    (∀ (primary r : Pool) (rs : List Pool) (e : Err)
      (w : Except Err (List (Option Int))),
      selectPool primary (r :: rs) (.error e) w =
        ⟨primary, [],
          [.gtidFetchFailed, .noGtidFromPrimary, .gtidUnavailable]⟩) ∧
    (∀ (primary r : Pool) (rs : List Pool)
      (w : Except Err (List (Option Int))),
      selectPool primary (r :: rs) (.ok (some "")) w =
        ⟨primary, [], [.noGtidFromPrimary, .gtidUnavailable]⟩) ∧
    ∀ (primary : Pool) (nextReplica : Option Pool)
      (w : Except Err (List (Option Int))),
      vpRoute .gtidContextEnabled primary nextReplica (.ok true) none
        w = ⟨.ok (nextReplica.getD primary), [], [.noGtidContext]⟩ := by
  exact ⟨fun primary r rs w => rfl, fun primary r rs e w => rfl,
    fun primary r rs w => rfl, fun primary nextReplica w => rfl⟩

/-- C4 counterexample: in the virtual pool configured with the
`disabled` mode, a Read-classified query does NOT execute on the
first configured replica — `includesMode('disabled',
'replica-selection')` is false, so the read is routed to the primary
like a write, with no replica involvement at all. -/
theorem c4_counterexample :
    (vpRoute .disabled Pool.primary (some (Pool.replica 0)) (.ok true)
      (some "g") (.ok [some 0])).target = .ok Pool.primary ∧
    (vpRoute .disabled Pool.primary (some (Pool.replica 0)) (.ok true)
      (some "g") (.ok [some 0])).waitCalls = [] ∧
    Pool.primary ≠ Pool.replica 0 := by
  exact ⟨rfl, rfl, by decide⟩

/-- C4 (amended): in the monotone pool, `disabled: true` sends every
read to the first configured replica with no token lookup and no
synchronization wait (falling back to the primary only when no
replica is configured), and writes still go to the primary; in the
virtual pool, the `disabled` member of the mode hierarchy routes
reads to the primary exactly like writes. -/
theorem c4_disabled_mode_routing :
    (∀ (primary r : Pool) (rs : List Pool) (sql : String)
      (pr : Except Err (Option String))
      (w : Except Err (List (Option Int))),
      isReadQuery sql = true →
        monotoneRoute true primary (r :: rs) sql pr w =
          ⟨r, [], 0, if rs.isEmpty then [] else [.multiReplica]⟩) ∧
    (∀ (disabled : Bool) (primary : Pool) (replicas : List Pool)
      (sql : String) (pr : Except Err (Option String))
      (w : Except Err (List (Option Int))),
      isReadQuery sql = false →
        monotoneRoute disabled primary replicas sql pr w =
          ⟨primary, [], 0, []⟩) ∧
    ∀ (primary : Pool) (nextReplica : Option Pool) (b : Bool)
      (ctx : Option String) (w : Except Err (List (Option Int))),
      vpRoute .disabled primary nextReplica (.ok b) ctx w =
        ⟨.ok primary, [], []⟩ := by
  refine ⟨?_, ?_, ?_⟩
  · intro primary r rs sql pr w hsql
    simp [monotoneRoute, hsql]
  · intro disabled primary replicas sql pr w hsql
    simp [monotoneRoute, hsql]
  · intro primary nextReplica b ctx w
    simp [vpRoute, includesMode, modeIndex]

/-- Witness for C4 (amended): a concrete read on a disabled monotone
pool goes to the sole replica with no lookup and no wait. -/
theorem c4_disabled_mode_routing_witness :
    monotoneRoute true Pool.primary [Pool.replica 0]
      "SELECT * FROM users" (.ok (some "g")) (.ok [some 1]) =
      ⟨Pool.replica 0, [], 0, []⟩ := by
  have := c4_disabled_mode_routing.1 Pool.primary (Pool.replica 0) []
    "SELECT * FROM users" (.ok (some "g")) (.ok [some 1]) (by decide)
  simpa using this
